import Mathlib

/-!
# Verification of the ArtinAR session controller (`src/final/app.js`)

The program is a single event-driven controller orchestrating a WebXR
immersive-AR session.  We embed it shallowly:

* the capability-probe IIFE (app.js lines 20-27) becomes `runProbe` over an
  environment recording which platform facilities exist and how the support
  query resolves;
* `App.activateXR` / `App.createXRCanvas` / `App.onSessionStarted`
  (lines 46-89) become `activateXR` over an environment of success/failure
  flags for each awaited platform call, acting on a `DocState` that records
  the externally visible document effects (canvases attached, `ar` class,
  fallback-handler invocations);
* the post-session-start behaviour — the model-selection buttons
  (lines 29-39), the tap handler `App.onSelect` (lines 91-120) with its
  asynchronous `loader.load` callback, and the frame handler `App.onXRFrame`
  (lines 122-149) — becomes a step function `stepEvent` on an `AppState`,
  with events for button clicks, taps, load resolutions/errors (one per
  in-flight load) and animation frames.  The single-threaded cooperative
  model of the browser means every handler runs to completion, so a run of
  the system is a fold of `stepEvent` over a list of events.

Floating-point coordinates are modelled as integers: the program only copies
them (reticle position into the clone, view matrices into the camera), never
computes with them.  Console logging is diagnostic output and is not part of
the modelled state.
-/

/-- Asset reference bound to the `model1-button` listener (app.js line 32). -/
def model1Asset : String := "../assets/scene.gltf"

/-- Asset reference bound to the `model2-button` listener (app.js line 37). -/
def model2Asset : String := "../assets/sceneD.gltf"

/-- Initial value of the shared `selectedModel` variable (app.js line 29). -/
def defaultModel : String := "../assets/scene.gltf"

/-- A 3-D position, as carried by `transform.position.{x,y,z}`. -/
structure Vec3 where
  x : Int
  y : Int
  z : Int
deriving DecidableEq

/-- The reticle scene node: visibility flag and position (mutated at
app.js lines 143-144). -/
structure Reticle where
  visible : Bool
  position : Vec3
deriving DecidableEq

/-- A model instance added to the scene by the placement callback
(app.js lines 106-108): the clone of the loaded asset, at the position
copied from the reticle. -/
structure PlacedModel where
  asset : String
  position : Vec3
deriving DecidableEq

/-- The data the first view of a viewer pose supplies to the frame handler
(app.js lines 130-134): viewport size, the view transform matrix and the
projection matrix, all merely copied into renderer/camera state. -/
structure PoseView where
  viewportW : Int
  viewportH : Int
  viewMatrix : List Int
  projMatrix : List Int
deriving DecidableEq

/-- Per-frame input delivered by the platform: the viewer pose relative to
the local reference space (`frame.getViewerPose`, `none` when tracking is
lost) and the hit-test results (`frame.getHitTestResults`), each result
represented by its pose position. -/
structure FrameInput where
  pose : Option PoseView
  hits : List Vec3
deriving DecidableEq

/-- The controller state after `onSessionStarted`: the shared selection
variable, the placement flag, `window.customModel`, the in-flight
`loader.load` calls (each recorded with the URL it was invoked with), the
placed clones in the scene, the optional `shadowMesh` node's y coordinate,
the reticle, the `stabilized` flag (doubling for the `stabilized` body
class), and the renderer/camera state written by the frame handler. -/
structure AppState where
  selectedModel : String
  modelPlaced : Bool
  customModel : Option String
  pendingLoads : List String
  placed : List PlacedModel
  shadowMeshY : Option Int
  reticle : Reticle
  stabilized : Bool
  rendererW : Int
  rendererH : Int
  cameraMatrix : List Int
  cameraProjection : List Int
deriving DecidableEq

/-- Events processed by the controller: clicks of the two selection buttons,
a tap (`select` gesture), resolution or failure of the `k`-th in-flight
asset load, and a platform animation-frame callback. -/
inductive Event where
  | clickModel1 : Event
  | clickModel2 : Event
  | tap : Event
  | loadResolve : Nat → Event
  | loadError : Nat → Event
  | frame : FrameInput → Event
deriving DecidableEq

/-- `App.onXRFrame` (app.js lines 122-149), state part.  When the pose is
unavailable the guarded block (lines 129-148) is skipped entirely.  With a
pose: renderer size and camera matrices are copied from the view
(lines 132-134); the `stabilized` flag is set on a nonempty hit-test result
(lines 137-140); on a nonempty result the reticle becomes visible at the
first result's pose position (lines 141-146); on an empty result the
reticle is left untouched. -/
def stepFrame (s : AppState) (f : FrameInput) : AppState :=
  match f.pose with
  | none => s
  | some v =>
    let s1 := { s with rendererW := v.viewportW, rendererH := v.viewportH,
                       cameraMatrix := v.viewMatrix,
                       cameraProjection := v.projMatrix }
    let s2 := if !s1.stabilized && !f.hits.isEmpty
              then { s1 with stabilized := true } else s1
    match f.hits with
    | [] => s2
    | h :: _ => { s2 with reticle := { visible := true, position := h } }

/-- The success callback of `loader.load` in `App.onSelect`
(app.js lines 99-116), fired when the `k`-th in-flight load resolves:
`window.customModel` is set to the loaded scene; then, if not already
placed (line 104), a clone is added at the reticle's current position, the
optional `shadowMesh` node's y is aligned to the clone's, and the placement
flag is set. -/
def resolveLoad (s : AppState) (k : Nat) : AppState :=
  match s.pendingLoads[k]? with
  | none => s
  | some url =>
    let s1 := { s with pendingLoads := s.pendingLoads.eraseIdx k,
                       customModel := some url }
    if !s1.modelPlaced && s1.customModel.isSome then
      let clone : PlacedModel := { asset := url, position := s1.reticle.position }
      { s1 with placed := s1.placed ++ [clone],
                shadowMeshY := s1.shadowMeshY.map (fun _ => clone.position.y),
                modelPlaced := true }
    else s1

/-- One step of the controller.  Button listeners (app.js lines 31-39)
overwrite the shared selection.  `App.onSelect` (lines 91-120): if the
placement flag is set, log and return; otherwise dispatch `loader.load`
with the current `selectedModel` (line 99) — the load is now in flight.
A load resolution runs the success callback (`resolveLoad`); a load error
runs the error callback (line 117-119), which only logs.  A frame event
runs `stepFrame`. -/
def stepEvent (s : AppState) (e : Event) : AppState :=
  match e with
  | .clickModel1 => { s with selectedModel := model1Asset }
  | .clickModel2 => { s with selectedModel := model2Asset }
  | .tap =>
      if s.modelPlaced then s
      else { s with pendingLoads := s.pendingLoads ++ [s.selectedModel] }
  | .loadResolve k => resolveLoad s k
  | .loadError k => { s with pendingLoads := s.pendingLoads.eraseIdx k }
  | .frame f => stepFrame s f

/-- Running the controller over a list of events (the browser's
single-threaded event loop serialises all handlers). -/
def runEvents (s : AppState) (es : List Event) : AppState :=
  es.foldl stepEvent s

/-- Running the frame handler over a list of frames. -/
def runFrames (s : AppState) (fs : List FrameInput) : AppState :=
  fs.foldl stepFrame s

/-- The controller state right after `onSessionStarted`: default selection
(line 29), placement flag false (constructor, line 43), no custom model, no
in-flight loads, nothing placed.  The scene produced by
`DemoUtils.createLitScene` may or may not contain a `shadowMesh` node and
the reticle starts wherever `new Reticle()` puts it, so both are
parameters. -/
def mkInitial (shadowY : Option Int) (r : Reticle) : AppState :=
  { selectedModel := defaultModel
    modelPlaced := false
    customModel := none
    pendingLoads := []
    placed := []
    shadowMeshY := shadowY
    reticle := r
    stabilized := false
    rendererW := 0
    rendererH := 0
    cameraMatrix := []
    cameraProjection := [] }

/-- Whether a frame produces a nonempty hit-test result list: the handler
queries `getHitTestResults` only when the viewer pose is available
(app.js lines 129, 136). -/
def producesHits (f : FrameInput) : Bool :=
  f.pose.isSome && !f.hits.isEmpty

/-- The asset bound to the most recently clicked selection button in an
event sequence, starting from a current selection (app.js lines 31-39:
each click unconditionally overwrites the shared variable). -/
def lastClickedAsset (sel : String) (es : List Event) : String :=
  es.foldl (fun acc e =>
    match e with
    | .clickModel1 => model1Asset
    | .clickModel2 => model2Asset
    | _ => acc) sel

/-- The frame handler never touches the selection, the placement flag, the
custom model, the in-flight loads, the placed clones or the shadow mesh. -/
lemma stepFrame_core (s : AppState) (f : FrameInput) :
    (stepFrame s f).selectedModel = s.selectedModel ∧
    (stepFrame s f).modelPlaced = s.modelPlaced ∧
    (stepFrame s f).customModel = s.customModel ∧
    (stepFrame s f).pendingLoads = s.pendingLoads ∧
    (stepFrame s f).placed = s.placed ∧
    (stepFrame s f).shadowMeshY = s.shadowMeshY := by
  rcases f with ⟨pose, hits⟩
  cases pose with
  | none => exact ⟨rfl, rfl, rfl, rfl, rfl, rfl⟩
  | some v =>
    cases hits with
    | nil =>
        simp only [stepFrame]
        split <;> exact ⟨rfl, rfl, rfl, rfl, rfl, rfl⟩
    | cons a l =>
        simp only [stepFrame]
        split <;> exact ⟨rfl, rfl, rfl, rfl, rfl, rfl⟩

/-- Claim C1: once `modelPlaced` is true, every subsequent tap is a no-op
leaving the whole controller state (in particular the scene content)
unchanged, for any number of taps; and no event ever resets the flag to
false. -/
theorem tap_noop_after_placement (s : AppState) (h : s.modelPlaced = true) :
    (∀ es : List Event, (∀ e ∈ es, e = Event.tap) → runEvents s es = s) ∧
    (∀ e : Event, (stepEvent s e).modelPlaced = true) := by
  have htap : stepEvent s Event.tap = s := by
    simp [stepEvent, h]
  constructor
  · intro es hall
    induction es with
    | nil => rfl
    | cons e es ih =>
        have he : e = Event.tap := hall e (List.mem_cons_self e es)
        have : runEvents s (e :: es) = runEvents (stepEvent s e) es := rfl
        rw [this, he, htap]
        exact ih (fun e' he' => hall e' (List.mem_cons_of_mem _ he'))
  · intro e
    cases e with
    | clickModel1 => simpa [stepEvent] using h
    | clickModel2 => simpa [stepEvent] using h
    | tap => rw [htap]; exact h
    | loadResolve k =>
        simp only [stepEvent, resolveLoad]
        cases hk : s.pendingLoads[k]? with
        | none => exact h
        | some url => simp [h]
    | loadError k => simpa [stepEvent] using h
    | frame f =>
        show (stepFrame s f).modelPlaced = true
        rw [(stepFrame_core s f).2.1]
        exact h

/-- Witness for C1 at a concrete placed state. -/
theorem tap_noop_after_placement_witness :
    (runEvents
        { mkInitial none { visible := false, position := ⟨0, 0, 0⟩ } with
            modelPlaced := true }
        [Event.tap, Event.tap] =
      { mkInitial none { visible := false, position := ⟨0, 0, 0⟩ } with
          modelPlaced := true }) ∧
    (stepEvent
        { mkInitial none { visible := false, position := ⟨0, 0, 0⟩ } with
            modelPlaced := true }
        (Event.loadResolve 0)).modelPlaced = true := by
  have h := tap_noop_after_placement
    { mkInitial none { visible := false, position := ⟨0, 0, 0⟩ } with
        modelPlaced := true } rfl
  exact ⟨h.1 [Event.tap, Event.tap] (by intro e he; simpa using he),
         h.2 (Event.loadResolve 0)⟩

/-- One controller step preserves the scene invariant: while the placement
flag is false nothing has been placed, and never more than one clone is in
the scene. -/
lemma placed_invariant_step (s : AppState) (e : Event)
    (h1 : s.modelPlaced = false → s.placed = [])
    (h2 : s.placed.length ≤ 1) :
    ((stepEvent s e).modelPlaced = false → (stepEvent s e).placed = []) ∧
    (stepEvent s e).placed.length ≤ 1 := by
  cases e with
  | clickModel1 => exact ⟨h1, h2⟩
  | clickModel2 => exact ⟨h1, h2⟩
  | tap =>
      simp only [stepEvent]
      split <;> exact ⟨h1, h2⟩
  | loadError k => exact ⟨h1, h2⟩
  | loadResolve k =>
      simp only [stepEvent, resolveLoad]
      cases hk : s.pendingLoads[k]? with
      | none => exact ⟨h1, h2⟩
      | some url =>
          cases hp : s.modelPlaced with
          | false =>
              have hnil : s.placed = [] := h1 hp
              refine ⟨?_, ?_⟩ <;> simp [hnil]
          | true =>
              refine ⟨?_, ?_⟩ <;> simp [h2]
  | frame f =>
      have hc := stepFrame_core s f
      show ((stepFrame s f).modelPlaced = false → (stepFrame s f).placed = []) ∧
        (stepFrame s f).placed.length ≤ 1
      rw [hc.2.1, hc.2.2.2.2.1]
      exact ⟨h1, h2⟩

/-- The scene invariant holds along every run. -/
lemma placed_invariant_run (es : List Event) :
    ∀ s : AppState, (s.modelPlaced = false → s.placed = []) →
      s.placed.length ≤ 1 → (runEvents s es).placed.length ≤ 1 := by
  induction es with
  | nil => intro s _ h2; exact h2
  | cons e es ih =>
      intro s h1 h2
      have hs := placed_invariant_step s e h1 h2
      exact ih (stepEvent s e) hs.1 hs.2

/-- Counterexample to claim C2: in the canonical execution where two taps
occur before the first load resolves, both taps do pass the guard (two
loads are in flight after the taps), yet after both loads resolve only one
cloned instance is in the scene — the success callback re-checks the
placement flag (app.js line 104) and the second callback skips placement. -/
theorem double_tap_single_placement_cex :
    (runEvents (mkInitial none ⟨false, ⟨0, 0, 0⟩⟩)
        [Event.tap, Event.tap]).pendingLoads.length = 2 ∧
    (runEvents (mkInitial none ⟨false, ⟨0, 0, 0⟩⟩)
        [Event.tap, Event.tap,
         Event.loadResolve 0, Event.loadResolve 0]).placed.length = 1 := by
  exact ⟨rfl, rfl⟩

/-- Claim C2 (amended): two taps before the first load resolves both pass
the "not yet placed" guard and both dispatch an asset load, but at most one
cloned instance is ever added to the scene in any execution, because the
load-success callback re-checks the placement flag before placing. -/
theorem double_tap_at_most_one_placement :
    (∀ s : AppState, s.modelPlaced = false →
        (stepEvent s Event.tap).pendingLoads =
          s.pendingLoads ++ [s.selectedModel]) ∧
    (∀ (shadowY : Option Int) (r : Reticle) (es : List Event),
        (runEvents (mkInitial shadowY r) es).placed.length ≤ 1) := by
  constructor
  · intro s hs
    simp [stepEvent, hs]
  · intro shadowY r es
    exact placed_invariant_run es (mkInitial shadowY r) (fun _ => rfl)
      (by simp [mkInitial])

/-- Witness for the amended C2 at concrete inputs. -/
theorem double_tap_at_most_one_placement_witness :
    (stepEvent (mkInitial none ⟨false, ⟨0, 0, 0⟩⟩) Event.tap).pendingLoads =
      (mkInitial none ⟨false, ⟨0, 0, 0⟩⟩).pendingLoads ++
        [(mkInitial none ⟨false, ⟨0, 0, 0⟩⟩).selectedModel] ∧
    (runEvents (mkInitial none ⟨false, ⟨0, 0, 0⟩⟩)
        [Event.tap, Event.tap, Event.loadResolve 0,
         Event.loadResolve 0]).placed.length ≤ 1 :=
  ⟨double_tap_at_most_one_placement.1 _ rfl,
   double_tap_at_most_one_placement.2 none _ _⟩

/-- One controller step changes the shared selection exactly as a
one-event fold of the button-listener updates does: a `model1-button` or
`model2-button` click overwrites it, every other event leaves it alone. -/
lemma stepEvent_selectedModel (s : AppState) (e : Event) :
    (stepEvent s e).selectedModel = lastClickedAsset s.selectedModel [e] := by
  cases e with
  | clickModel1 => rfl
  | clickModel2 => rfl
  | tap =>
      show (stepEvent s Event.tap).selectedModel = s.selectedModel
      simp only [stepEvent]
      split <;> rfl
  | loadResolve k =>
      show (resolveLoad s k).selectedModel = s.selectedModel
      simp only [resolveLoad]
      split
      · rfl
      · split <;> rfl
  | loadError k => rfl
  | frame f => exact (stepFrame_core s f).1

/-- Claim C6: after any event sequence, the shared selected-asset value is
the asset bound to the most recently clicked selection button (the initial
selection if no click occurred), the bindings being
model1 → `../assets/scene.gltf` and model2 → `../assets/sceneD.gltf`; and a
tap passes exactly the current shared value to the loader. -/
theorem selection_last_click_wins :
    (∀ (s : AppState) (es : List Event),
        (runEvents s es).selectedModel = lastClickedAsset s.selectedModel es) ∧
    (∀ s : AppState, s.modelPlaced = false →
        (stepEvent s Event.tap).pendingLoads =
          s.pendingLoads ++ [s.selectedModel]) ∧
    model1Asset = "../assets/scene.gltf" ∧
    model2Asset = "../assets/sceneD.gltf" := by
  refine ⟨?_, ?_, rfl, rfl⟩
  · intro s es
    induction es generalizing s with
    | nil => rfl
    | cons e es ih =>
        show (runEvents (stepEvent s e) es).selectedModel = _
        rw [ih (stepEvent s e), stepEvent_selectedModel]
        rfl
  · intro s hs
    simp [stepEvent, hs]

/-- Witness for C6: a `model2-button` click overwrites the default
selection, and a tap dispatches the load with the current selection. -/
theorem selection_last_click_wins_witness :
    (runEvents (mkInitial none ⟨false, ⟨0, 0, 0⟩⟩)
        [Event.clickModel2]).selectedModel =
      lastClickedAsset (mkInitial none ⟨false, ⟨0, 0, 0⟩⟩).selectedModel
        [Event.clickModel2] ∧
    (stepEvent (mkInitial none ⟨false, ⟨0, 0, 0⟩⟩) Event.tap).pendingLoads =
      (mkInitial none ⟨false, ⟨0, 0, 0⟩⟩).pendingLoads ++
        [(mkInitial none ⟨false, ⟨0, 0, 0⟩⟩).selectedModel] :=
  ⟨selection_last_click_wins.1 _ _, selection_last_click_wins.2.1 _ rfl⟩

/-- Claim C10: the asset reference used by a placement is snapshotted at
tap time — the tap records the current shared selection with the dispatched
load, selection-button clicks never alter an in-flight load's recorded
reference, and the load's resolution places a clone of exactly the recorded
asset. -/
theorem placement_snapshot_selection :
    (∀ s : AppState, s.modelPlaced = false →
        (stepEvent s Event.tap).pendingLoads =
          s.pendingLoads ++ [s.selectedModel]) ∧
    (∀ s : AppState,
        (stepEvent s Event.clickModel1).pendingLoads = s.pendingLoads ∧
        (stepEvent s Event.clickModel2).pendingLoads = s.pendingLoads) ∧
    (∀ (s : AppState) (k : Nat) (url : String),
        s.modelPlaced = false → s.pendingLoads[k]? = some url →
        (stepEvent s (Event.loadResolve k)).placed =
          s.placed ++ [{ asset := url, position := s.reticle.position }]) := by
  refine ⟨?_, fun s => ⟨rfl, rfl⟩, ?_⟩
  · intro s hs
    simp [stepEvent, hs]
  · intro s k url hs hk
    show (resolveLoad s k).placed = _
    simp [resolveLoad, hk, hs]

/-- Witness for C10: tap while `model1` is selected, click `model2` during
the load, then resolve — the placed clone is still the `model1` asset. -/
theorem placement_snapshot_selection_witness :
    (stepEvent (mkInitial (some 0) ⟨true, ⟨1, 2, 3⟩⟩) Event.tap).pendingLoads =
      (mkInitial (some 0) ⟨true, ⟨1, 2, 3⟩⟩).pendingLoads ++
        [(mkInitial (some 0) ⟨true, ⟨1, 2, 3⟩⟩).selectedModel] ∧
    (stepEvent
        { mkInitial (some 0) ⟨true, ⟨1, 2, 3⟩⟩ with
            selectedModel := model2Asset, pendingLoads := [model1Asset] }
        (Event.loadResolve 0)).placed =
      { mkInitial (some 0) ⟨true, ⟨1, 2, 3⟩⟩ with
          selectedModel := model2Asset, pendingLoads := [model1Asset] }.placed ++
        [{ asset := model1Asset, position := ⟨1, 2, 3⟩ }] :=
  ⟨placement_snapshot_selection.1 _ rfl,
   placement_snapshot_selection.2.2 _ 0 model1Asset rfl rfl⟩

/-- Exact characterisation of the `stabilized` flag across one frame: it is
set exactly when it was already set or the frame produced a nonempty
hit-test result (app.js lines 137-140). -/
lemma stepFrame_stabilized (s : AppState) (f : FrameInput) :
    (stepFrame s f).stabilized = (s.stabilized || producesHits f) := by
  rcases f with ⟨pose, hits⟩
  cases pose with
  | none => simp [stepFrame, producesHits]
  | some v =>
      cases hits with
      | nil => simp [stepFrame, producesHits]
      | cons a l =>
          cases hst : s.stabilized <;>
            simp [stepFrame, producesHits, hst]

/-- Once set, the `stabilized` flag survives any run of frames. -/
lemma runFrames_stabilized_mono (fs : List FrameInput) :
    ∀ s : AppState, s.stabilized = true → (runFrames s fs).stabilized = true := by
  induction fs with
  | nil => intro s h; exact h
  | cons f fs ih =>
      intro s h
      exact ih (stepFrame s f) (by rw [stepFrame_stabilized, h]; rfl)

/-- Claim C7: the reticle is sticky.  On a frame whose hit-test query comes
back empty, its position and visibility are exactly those of the previous
frame; on a frame with at least one result, it becomes visible and its
position is set to the first result's pose position.  The handler queries
hit-test results only when the viewer pose is available (app.js lines
129, 136), so the nonempty case is stated for pose-carrying frames; on a
pose-lost frame the reticle is likewise untouched. -/
theorem reticle_sticky_update (s : AppState) (f : FrameInput) :
    (f.pose = none → (stepFrame s f).reticle = s.reticle) ∧
    (f.pose.isSome = true → f.hits = [] → (stepFrame s f).reticle = s.reticle) ∧
    (∀ h t, f.pose.isSome = true → f.hits = h :: t →
      (stepFrame s f).reticle.visible = true ∧
      (stepFrame s f).reticle.position = h) := by
  rcases f with ⟨pose, hits⟩
  cases pose with
  | none =>
      refine ⟨fun _ => rfl, ?_, ?_⟩
      · intro hp _; exact absurd hp (by simp)
      · intro h t hp _; exact absurd hp (by simp)
  | some v =>
      cases hits with
      | nil =>
          refine ⟨?_, ?_, ?_⟩
          · intro hp; exact absurd hp (by simp)
          · intro _ _
            simp only [stepFrame]
            split <;> rfl
          · intro h t _ ht; exact absurd ht (by simp)
      | cons a l =>
          refine ⟨?_, ?_, ?_⟩
          · intro hp; exact absurd hp (by simp)
          · intro _ hnil; exact absurd hnil (by simp)
          · intro h t _ ht
            have ha : a = h := by injection ht
            subst ha
            exact ⟨rfl, rfl⟩

/-- Witness for C7: an empty-result frame leaves a concrete reticle alone,
and a one-result frame moves it to the hit position and shows it. -/
theorem reticle_sticky_update_witness :
    (stepFrame (mkInitial none ⟨false, ⟨7, 8, 9⟩⟩)
        { pose := some ⟨0, 0, [], []⟩, hits := [] }).reticle =
      (mkInitial none ⟨false, ⟨7, 8, 9⟩⟩).reticle ∧
    (stepFrame (mkInitial none ⟨false, ⟨7, 8, 9⟩⟩)
        { pose := some ⟨0, 0, [], []⟩, hits := [⟨1, 2, 3⟩] }).reticle.visible =
      true ∧
    (stepFrame (mkInitial none ⟨false, ⟨7, 8, 9⟩⟩)
        { pose := some ⟨0, 0, [], []⟩, hits := [⟨1, 2, 3⟩] }).reticle.position =
      ⟨1, 2, 3⟩ := by
  refine ⟨?_, ?_⟩
  · exact (reticle_sticky_update (mkInitial none ⟨false, ⟨7, 8, 9⟩⟩)
      { pose := some ⟨0, 0, [], []⟩, hits := [] }).2.1 rfl rfl
  · exact (reticle_sticky_update (mkInitial none ⟨false, ⟨7, 8, 9⟩⟩)
      { pose := some ⟨0, 0, [], []⟩, hits := [⟨1, 2, 3⟩] }).2.2
      ⟨1, 2, 3⟩ [] rfl rfl

/-- Claim C8: the `stabilized` flag is one-way.  Across one frame it equals
"already set, or this frame produced a nonempty hit-test result"; in
particular it never goes back to false, and starting from an unset flag a
run of frames ends with the flag set exactly when some frame of the run
produced a nonempty result — instantiating the run at every prefix, the
false→true transition happens exactly on the first such frame. -/
theorem stabilized_one_way :
    (∀ (s : AppState) (f : FrameInput),
        (stepFrame s f).stabilized = (s.stabilized || producesHits f)) ∧
    (∀ (s : AppState) (f : FrameInput), s.stabilized = true →
        (stepFrame s f).stabilized = true) ∧
    (∀ (s : AppState) (fs : List FrameInput), s.stabilized = false →
        ((runFrames s fs).stabilized = true ↔ fs.any producesHits = true)) := by
  refine ⟨stepFrame_stabilized, ?_, ?_⟩
  · intro s f h
    rw [stepFrame_stabilized, h]
    rfl
  · intro s fs
    induction fs generalizing s with
    | nil =>
        intro h
        simpa [runFrames] using h
    | cons f fs ih =>
        intro h
        show ((runFrames (stepFrame s f) fs).stabilized = true ↔ _)
        cases hpf : producesHits f with
        | true =>
            have hset : (stepFrame s f).stabilized = true := by
              rw [stepFrame_stabilized, h, hpf]; rfl
            simp [runFrames_stabilized_mono fs _ hset, List.any_cons, hpf]
        | false =>
            have hunset : (stepFrame s f).stabilized = false := by
              rw [stepFrame_stabilized, h, hpf]; rfl
            rw [ih (stepFrame s f) hunset]
            simp [List.any_cons, hpf]

/-- Witness for C8 at concrete states and frames. -/
theorem stabilized_one_way_witness :
    (stepFrame (mkInitial none ⟨false, ⟨0, 0, 0⟩⟩)
        { pose := some ⟨0, 0, [], []⟩, hits := [⟨1, 2, 3⟩] }).stabilized =
      ((mkInitial none ⟨false, ⟨0, 0, 0⟩⟩).stabilized ||
        producesHits { pose := some ⟨0, 0, [], []⟩, hits := [⟨1, 2, 3⟩] }) ∧
    (stepFrame { mkInitial none ⟨false, ⟨0, 0, 0⟩⟩ with stabilized := true }
        { pose := none, hits := [] }).stabilized = true ∧
    ((runFrames (mkInitial none ⟨false, ⟨0, 0, 0⟩⟩)
        [{ pose := none, hits := [⟨1, 2, 3⟩] },
         { pose := some ⟨0, 0, [], []⟩, hits := [⟨1, 2, 3⟩] }]).stabilized = true ↔
      [{ pose := none, hits := [⟨1, 2, 3⟩] },
       { pose := some ⟨0, 0, [], []⟩, hits := [⟨1, 2, 3⟩] }].any producesHits
        = true) :=
  ⟨stabilized_one_way.1 _ _, stabilized_one_way.2.1 _ _ rfl,
   stabilized_one_way.2.2 _ _ rfl⟩

/-- The externally visible actions the frame callback performs, in program
order (console logging excluded as diagnostics). -/
inductive FrameAction where
  | registerNextFrame : FrameAction
  | bindFramebuffer : FrameAction
  | setRendererFramebuffer : FrameAction
  | computeViewerPose : FrameAction
  | setRendererSize : FrameAction
  | updateCameraTransform : FrameAction
  | markCameraWorldMatrix : FrameAction
  | runHitTest : FrameAction
  | markStabilized : FrameAction
  | updateReticle : FrameAction
  | render : FrameAction
deriving DecidableEq

/-- The ordered action trace of one `App.onXRFrame` invocation
(app.js lines 122-149): re-register for the next frame (line 124), bind the
framebuffer (lines 125-127), compute the viewer pose (line 128); then, only
if a pose is available: resize the renderer and load the camera matrices
(lines 130-135), run hit-testing (line 136), flip `stabilized` when first
applicable (lines 137-140), update the reticle on a nonempty result
(lines 141-146), and render (line 147). -/
def onXRFrameActions (stabilized : Bool) (f : FrameInput) : List FrameAction :=
  [FrameAction.registerNextFrame, FrameAction.bindFramebuffer,
   FrameAction.setRendererFramebuffer, FrameAction.computeViewerPose] ++
  match f.pose with
  | none => []
  | some _ =>
    [FrameAction.setRendererSize, FrameAction.updateCameraTransform,
     FrameAction.markCameraWorldMatrix, FrameAction.runHitTest] ++
    (if !stabilized && !f.hits.isEmpty then [FrameAction.markStabilized] else []) ++
    (if !f.hits.isEmpty then [FrameAction.updateReticle] else []) ++
    [FrameAction.render]

/-- Claim C9: re-registration for the next animation frame is the first
action of every frame-callback invocation and strictly precedes the pose
computation; when the viewer pose is unavailable the callback performs
nothing beyond re-registering, binding the framebuffer and the failed pose
computation — no camera update, hit test, reticle update or render — yet
re-registration has already happened, so the frame loop stays alive. -/
theorem frame_reregister_first (stabilized : Bool) (f : FrameInput) :
    (onXRFrameActions stabilized f).head? = some FrameAction.registerNextFrame ∧
    (onXRFrameActions stabilized f).indexOf FrameAction.registerNextFrame <
      (onXRFrameActions stabilized f).indexOf FrameAction.computeViewerPose ∧
    (f.pose = none →
      onXRFrameActions stabilized f =
        [FrameAction.registerNextFrame, FrameAction.bindFramebuffer,
         FrameAction.setRendererFramebuffer, FrameAction.computeViewerPose] ∧
      FrameAction.registerNextFrame ∈ onXRFrameActions stabilized f ∧
      FrameAction.render ∉ onXRFrameActions stabilized f ∧
      FrameAction.runHitTest ∉ onXRFrameActions stabilized f ∧
      FrameAction.updateReticle ∉ onXRFrameActions stabilized f ∧
      FrameAction.updateCameraTransform ∉ onXRFrameActions stabilized f) := by
  rcases f with ⟨pose, hits⟩
  cases pose with
  | none =>
      have hred : onXRFrameActions stabilized ⟨none, hits⟩ =
          [FrameAction.registerNextFrame, FrameAction.bindFramebuffer,
           FrameAction.setRendererFramebuffer, FrameAction.computeViewerPose] := rfl
      rw [hred]
      exact ⟨rfl, by decide, fun _ =>
        ⟨rfl, by decide, by decide, by decide, by decide, by decide⟩⟩
  | some v =>
      refine ⟨rfl, ?_, fun hp => absurd hp (by simp)⟩
      cases hits with
      | nil =>
          cases stabilized with
          | false =>
              have hred : onXRFrameActions false ⟨some v, []⟩ =
                  [FrameAction.registerNextFrame, FrameAction.bindFramebuffer,
                   FrameAction.setRendererFramebuffer, FrameAction.computeViewerPose,
                   FrameAction.setRendererSize, FrameAction.updateCameraTransform,
                   FrameAction.markCameraWorldMatrix, FrameAction.runHitTest,
                   FrameAction.render] := rfl
              rw [hred]; decide
          | true =>
              have hred : onXRFrameActions true ⟨some v, []⟩ =
                  [FrameAction.registerNextFrame, FrameAction.bindFramebuffer,
                   FrameAction.setRendererFramebuffer, FrameAction.computeViewerPose,
                   FrameAction.setRendererSize, FrameAction.updateCameraTransform,
                   FrameAction.markCameraWorldMatrix, FrameAction.runHitTest,
                   FrameAction.render] := rfl
              rw [hred]; decide
      | cons a l =>
          cases stabilized with
          | false =>
              have hred : onXRFrameActions false ⟨some v, a :: l⟩ =
                  [FrameAction.registerNextFrame, FrameAction.bindFramebuffer,
                   FrameAction.setRendererFramebuffer, FrameAction.computeViewerPose,
                   FrameAction.setRendererSize, FrameAction.updateCameraTransform,
                   FrameAction.markCameraWorldMatrix, FrameAction.runHitTest,
                   FrameAction.markStabilized, FrameAction.updateReticle,
                   FrameAction.render] := rfl
              rw [hred]; decide
          | true =>
              have hred : onXRFrameActions true ⟨some v, a :: l⟩ =
                  [FrameAction.registerNextFrame, FrameAction.bindFramebuffer,
                   FrameAction.setRendererFramebuffer, FrameAction.computeViewerPose,
                   FrameAction.setRendererSize, FrameAction.updateCameraTransform,
                   FrameAction.markCameraWorldMatrix, FrameAction.runHitTest,
                   FrameAction.updateReticle, FrameAction.render] := rfl
              rw [hred]; decide

/-- Witness for C9 on a concrete pose-lost frame. -/
theorem frame_reregister_first_witness :
    (onXRFrameActions false { pose := none, hits := [] }).head? =
      some FrameAction.registerNextFrame ∧
    onXRFrameActions false { pose := none, hits := [] } =
      [FrameAction.registerNextFrame, FrameAction.bindFramebuffer,
       FrameAction.setRendererFramebuffer, FrameAction.computeViewerPose] :=
  ⟨(frame_reregister_first false { pose := none, hits := [] }).1,
   ((frame_reregister_first false { pose := none, hits := [] }).2.2 rfl).1⟩

/-- Outcomes of the awaited/throwing platform calls inside
`App.activateXR` (app.js lines 46-89): whether `requestSession` resolves,
whether `canvas.getContext("webgl", {xrCompatible: true})` yields a
context (a null context makes the `XRWebGLLayer` constructor throw),
whether `updateRenderState`/`XRWebGLLayer` succeed, and whether all the
awaited acquisitions of `onSessionStarted` resolve. -/
structure ActivationEnv where
  requestSessionOk : Bool
  getContextOk : Bool
  renderStateOk : Bool
  sessionStartOk : Bool
deriving DecidableEq

/-- The externally visible document state touched by activation: how many
canvases are attached to `document.body`, whether the `ar` body class was
added, how many times `onNoXRDevice` ran, and whether the session reached
the running state (frame callback and select listener registered). -/
structure DocState where
  canvasCount : Nat
  arClass : Bool
  noDeviceCalls : Nat
  sessionRunning : Bool
deriving DecidableEq

/-- The document state before any activation attempt. -/
def initDoc : DocState :=
  { canvasCount := 0, arClass := false, noDeviceCalls := 0,
    sessionRunning := false }

/-- `App.createXRCanvas` (app.js lines 67-77): the canvas is created and
appended to `document.body` first (lines 69-70); then the context is
obtained (line 71) and the session's base layer installed (lines 74-76).
A null context or a failing layer construction throws — after the canvas
is already attached.  Returns the new document state and whether the call
completed. -/
def createXRCanvas (env : ActivationEnv) (d : DocState) :
    DocState × Except Unit Unit :=
  let d1 := { d with canvasCount := d.canvasCount + 1 }
  if !env.getContextOk then (d1, Except.error ())
  else if !env.renderStateOk then (d1, Except.error ())
  else (d1, Except.ok ())

/-- `App.onSessionStarted` (app.js lines 79-89): the `ar` body class is
added and Three.js set up synchronously before the first await; the awaited
reference-space and hit-test-source acquisitions may reject, in which case
the session never reaches the running state but the class stays added. -/
def onSessionStarted (env : ActivationEnv) (d : DocState) :
    DocState × Except Unit Unit :=
  let d1 := { d with arClass := true }
  if env.sessionStartOk then
    ({ d1 with sessionRunning := true }, Except.ok ())
  else (d1, Except.error ())

/-- `App.activateXR` (app.js lines 46-65): request the session; on success
create the XR canvas, then start the session.  Any exception thrown or
rejection raised anywhere in the `try` block lands in the single `catch`,
which logs and calls `onNoXRDevice` — nothing is rolled back. -/
def activateXR (env : ActivationEnv) (d : DocState) : DocState :=
  if !env.requestSessionOk then
    { d with noDeviceCalls := d.noDeviceCalls + 1 }
  else
    match createXRCanvas env d with
    | (d1, Except.error _) => { d1 with noDeviceCalls := d1.noDeviceCalls + 1 }
    | (d1, Except.ok _) =>
      match onSessionStarted env d1 with
      | (d2, Except.error _) => { d2 with noDeviceCalls := d2.noDeviceCalls + 1 }
      | (d2, Except.ok _) => d2

/-- Whether some step of the activation sequence fails. -/
def activationFails (env : ActivationEnv) : Bool :=
  !(env.requestSessionOk && env.getContextOk && env.renderStateOk &&
    env.sessionStartOk)

/-- Counterexample to claim C3: when `requestSession` succeeds but context
creation fails, the no-device error path runs, yet the canvas appended by
`createXRCanvas` (app.js line 70) is never removed — a canvas remains
attached to the document, so the failure does leave partial state. -/
theorem activation_partial_canvas_cex :
    (activateXR
        { requestSessionOk := true, getContextOk := false,
          renderStateOk := true, sessionStartOk := true }
        initDoc).noDeviceCalls = 1 ∧
    (activateXR
        { requestSessionOk := true, getContextOk := false,
          renderStateOk := true, sessionStartOk := true }
        initDoc).canvasCount ≠ 0 := by
  exact ⟨rfl, by decide⟩

/-- Claim C3 (amended): every failure of the activation sequence invokes
the no-device error path exactly once and leaves the session not running;
a failure of the session request itself leaves no canvas attached, but any
failure after the canvas is appended (context/layer creation, session
start) leaves that canvas attached to the document. -/
theorem activation_failure_fallback (env : ActivationEnv) :
    (activationFails env = true →
        (activateXR env initDoc).noDeviceCalls = 1 ∧
        (activateXR env initDoc).sessionRunning = false) ∧
    (env.requestSessionOk = false →
        (activateXR env initDoc).canvasCount = 0) ∧
    (env.requestSessionOk = true → activationFails env = true →
        (activateXR env initDoc).canvasCount = 1) ∧
    (activationFails env = false →
        (activateXR env initDoc).noDeviceCalls = 0 ∧
        (activateXR env initDoc).sessionRunning = true) := by
  rcases env with ⟨a, b, c, d⟩
  cases a <;> cases b <;> cases c <;> cases d <;>
    exact ⟨fun h => by first | exact ⟨rfl, rfl⟩ | exact absurd h (by decide),
           fun h => by first | rfl | exact absurd h (by decide),
           fun h h2 => by first | rfl | exact absurd h (by decide),
           fun h => by first | exact ⟨rfl, rfl⟩ | exact absurd h (by decide)⟩

/-- Witness for the amended C3 at a concrete failing environment. -/
theorem activation_failure_fallback_witness :
    ((activateXR
        { requestSessionOk := true, getContextOk := true,
          renderStateOk := true, sessionStartOk := false }
        initDoc).noDeviceCalls = 1 ∧
      (activateXR
        { requestSessionOk := true, getContextOk := true,
          renderStateOk := true, sessionStartOk := false }
        initDoc).sessionRunning = false) ∧
    (activateXR
        { requestSessionOk := true, getContextOk := true,
          renderStateOk := true, sessionStartOk := false }
        initDoc).canvasCount = 1 :=
  ⟨(activation_failure_fallback
      { requestSessionOk := true, getContextOk := true,
        renderStateOk := true, sessionStartOk := false }).1 rfl,
   (activation_failure_fallback
      { requestSessionOk := true, getContextOk := true,
        renderStateOk := true, sessionStartOk := false }).2.2.1 rfl rfl⟩

/-- Claim C5: if `requestSession` rejects, the `catch` block invokes the
fallback handler, and since `createXRCanvas` is only reached after the
session request succeeds (app.js lines 50-57), no canvas is attached to
the document. -/
theorem requestSession_reject_clean (env : ActivationEnv)
    (h : env.requestSessionOk = false) :
    (activateXR env initDoc).noDeviceCalls = 1 ∧
    (activateXR env initDoc).canvasCount = 0 := by
  simp [activateXR, h, initDoc]

/-- Witness for C5 at a concrete environment. -/
theorem requestSession_reject_clean_witness :
    (activateXR
        { requestSessionOk := false, getContextOk := true,
          renderStateOk := true, sessionStartOk := true }
        initDoc).noDeviceCalls = 1 ∧
    (activateXR
        { requestSessionOk := false, getContextOk := true,
          renderStateOk := true, sessionStartOk := true }
        initDoc).canvasCount = 0 :=
  requestSession_reject_clean
    { requestSessionOk := false, getContextOk := true,
      renderStateOk := true, sessionStartOk := true } rfl

/-- Environment of the capability probe (app.js lines 20-27): whether
`navigator.xr` exists, whether `navigator.xr.isSessionSupported` exists,
and the outcome of awaiting `isSessionSupported("immersive-ar")` —
`some b` when the promise resolves with `b`, `none` when it rejects. -/
structure ProbeEnv where
  xrPresent : Bool
  queryPresent : Bool
  queryResult : Option Bool
deriving DecidableEq

/-- Result of the probe IIFE: whether the `click` listener on the
`enter-ar` button was wired to `activateXR`, how many times `onNoXRDevice`
ran, and whether the async function ended in an unhandled rejection (the
`await` threw and there is no `try`/`catch` around it). -/
structure ProbeResult where
  enterArWired : Bool
  noDeviceCalls : Nat
  probeRejected : Bool
deriving DecidableEq

/-- The capability-probe IIFE (app.js lines 20-27).  The short-circuit
conjunction makes a missing `navigator.xr` or a missing query function
yield a falsy support flag, taking the `else` branch to `onNoXRDevice`.
When the query is awaited and rejects, the exception propagates out of the
async function: neither branch of the `if` runs. -/
def runProbe (env : ProbeEnv) : ProbeResult :=
  if env.xrPresent && env.queryPresent then
    match env.queryResult with
    | none =>
        { enterArWired := false, noDeviceCalls := 0, probeRejected := true }
    | some b =>
        if b then
          { enterArWired := true, noDeviceCalls := 0, probeRejected := false }
        else
          { enterArWired := false, noDeviceCalls := 1, probeRejected := false }
  else
    { enterArWired := false, noDeviceCalls := 1, probeRejected := false }

/-- Whether a later click on the `enter-ar` button can request a session:
`activateXR` (the only caller of `requestSession`) runs only through the
listener the probe wires (app.js line 23). -/
def sessionRequestedOnClick (env : ProbeEnv) : Bool :=
  (runProbe env).enterArWired

/-- Counterexample to claim C4: when `isSessionSupported` rejects, the
probe's async function aborts with an unhandled rejection before reaching
either branch, so the no-device fallback handler is never invoked — not
invoked exactly once as the claim requires. -/
theorem probe_reject_no_fallback_cex :
    (runProbe { xrPresent := true, queryPresent := true,
                queryResult := none }).noDeviceCalls ≠ 1 ∧
    (runProbe { xrPresent := true, queryPresent := true,
                queryResult := none }).noDeviceCalls = 0 ∧
    (runProbe { xrPresent := true, queryPresent := true,
                queryResult := none }).probeRejected = true := by
  exact ⟨by decide, rfl, rfl⟩

/-- Claim C4 (amended): for every outcome of the capability probe other
than a true result, the `enter AR` affordance is never wired to activation
and no session is requested; the no-device fallback handler is invoked
exactly once when the query API is absent or the query resolves false, but
zero times when the query rejects — that path aborts with an unhandled
rejection instead. -/
theorem probe_outcomes (env : ProbeEnv) :
    ((env.xrPresent && env.queryPresent) = false →
        runProbe env =
          { enterArWired := false, noDeviceCalls := 1,
            probeRejected := false }) ∧
    ((env.xrPresent && env.queryPresent) = true →
      env.queryResult = some false →
        runProbe env =
          { enterArWired := false, noDeviceCalls := 1,
            probeRejected := false }) ∧
    ((env.xrPresent && env.queryPresent) = true →
      env.queryResult = none →
        runProbe env =
          { enterArWired := false, noDeviceCalls := 0,
            probeRejected := true }) ∧
    (sessionRequestedOnClick env = true →
      (env.xrPresent && env.queryPresent) = true ∧
        env.queryResult = some true) := by
  rcases env with ⟨x, q, r⟩
  cases x <;> cases q <;>
    rcases r with _ | b <;>
      first
      | exact ⟨fun _ => rfl, fun h _ => absurd h (by decide),
               fun h _ => absurd h (by decide),
               fun h => absurd h (by decide)⟩
      | (cases b <;>
          first
          | exact ⟨fun _ => rfl, fun h _ => absurd h (by decide),
                   fun h _ => absurd h (by decide),
                   fun h => absurd h (by decide)⟩
          | exact ⟨fun h => absurd h (by decide), fun _ _ => rfl,
                   fun _ h => absurd h (by decide),
                   fun h => absurd h (by decide)⟩
          | exact ⟨fun h => absurd h (by decide), fun _ h => absurd h (by decide),
                   fun _ h => absurd h (by decide), fun _ => ⟨rfl, rfl⟩⟩)
      | exact ⟨fun h => absurd h (by decide), fun _ h => absurd h (by decide),
               fun _ _ => rfl, fun h => absurd h (by decide)⟩

/-- Witness for the amended C4 at concrete probe environments. -/
theorem probe_outcomes_witness :
    runProbe { xrPresent := false, queryPresent := false,
               queryResult := some true } =
      { enterArWired := false, noDeviceCalls := 1, probeRejected := false } ∧
    runProbe { xrPresent := true, queryPresent := true,
               queryResult := some false } =
      { enterArWired := false, noDeviceCalls := 1, probeRejected := false } ∧
    runProbe { xrPresent := true, queryPresent := true, queryResult := none } =
      { enterArWired := false, noDeviceCalls := 0, probeRejected := true } :=
  ⟨(probe_outcomes ⟨false, false, some true⟩).1 rfl,
   (probe_outcomes ⟨true, true, some false⟩).2.1 rfl rfl,
   (probe_outcomes ⟨true, true, none⟩).2.2.1 rfl rfl⟩
